import Mathlib

/-!
Verification of the officer-association portal backend.

The repository is a family of revisions of one Express/Mongoose server.
We shallowly embed each revision's routes as pure Lean functions over an
explicit store (a list of documents).  Dates are modelled as natural
numbers (epoch), MongoDB documents as Lean structures, HTTP/JSON responses
as a status code plus a one-level JSON object, and the external bcrypt
library as a function parameter (`hash` / `verify`).  MongoDB behaviour
that the routes rely on (unique indexes, `findOne` / `findOneAndUpdate`,
schema validation and casting) is modelled explicitly at each call site;
an error that a route does not catch is modelled as `Except.error`.

Revisions embedded:
  * `RevA`  : the first document of `src/server.js` (the head revision);
  * `P2`    : `src/unnamed/part_002` (12-digit transaction contract);
  * `P1b`   : the second document of `src/unnamed/part_001`
              (the six-designation transfer revision).
-/

/-- JSON leaf values appearing in this API's bodies. -/
inductive Jv where
  | null
  | jbool (b : Bool)
  | jnum (n : Int)
  | jstr (s : String)
deriving DecidableEq, Repr

/-- A JSON field value: either a leaf or a one-level nested object
(enough for every response this server produces). -/
inductive JField where
  | leaf (v : Jv)
  | obj (fs : List (String × Jv))
deriving DecidableEq, Repr

/-- An HTTP response: status code plus JSON object body. -/
structure HResp where
  status : Nat
  body : List (String × JField)
deriving DecidableEq, Repr

/-- Response `res.status(n).json({ error: msg })`. -/
def errResp (status : Nat) (msg : String) : HResp :=
  { status := status, body := [("error", JField.leaf (Jv.jstr msg))] }

/-- Response `res.json({ message: msg })` (express default status 200). -/
def msgResp (msg : String) : HResp :=
  { status := 200, body := [("message", JField.leaf (Jv.jstr msg))] }

/-- JavaScript truthiness of an optional string field of a JSON body:
`undefined` and the empty string are falsy. -/
def truthy : Option String → Bool
  | none => false
  | some s => s ≠ ""

/-- JavaScript `delete obj.key` on a plain object, viewed as a field list. -/
def deleteKey (k : String) (fs : List (String × Jv)) : List (String × Jv) :=
  fs.filter (fun f => f.1 ≠ k)

/-- Decidable equality of `Except` results, used to evaluate route
outcomes on concrete inputs. -/
instance {ε α : Type} [DecidableEq ε] [DecidableEq α] : DecidableEq (Except ε α) := fun x y =>
  match x, y with
  | Except.ok a, Except.ok b =>
    if h : a = b then Decidable.isTrue (by rw [h])
    else Decidable.isFalse (by intro hh; cases hh; exact h rfl)
  | Except.error a, Except.error b =>
    if h : a = b then Decidable.isTrue (by rw [h])
    else Decidable.isFalse (by intro hh; cases hh; exact h rfl)
  | Except.ok _, Except.error _ => Decidable.isFalse (by intro hh; cases hh)
  | Except.error _, Except.ok _ => Decidable.isFalse (by intro hh; cases hh)

/-- Replace the first list element satisfying `p` by its image under `f`
(the effect of a Mongo `findOneAndUpdate` / `document.save()` on a store). -/
def replaceFirst (p : α → Bool) (f : α → α) : List α → List α
  | [] => []
  | x :: xs => if p x then f x :: xs else x :: replaceFirst p f xs

/-- JavaScript `String.prototype.toUpperCase` on one character
(ASCII fragment, which covers every designation in the allow-lists). -/
def jsCharToUpper (c : Char) : Char :=
  if 97 ≤ c.toNat ∧ c.toNat ≤ 122 then Char.ofNat (c.toNat - 32) else c

/-- JavaScript `String.prototype.toUpperCase`. -/
def jsToUpperCase (s : String) : String :=
  String.mk (s.data.map jsCharToUpper)

/-- JavaScript whitespace for `String.prototype.trim` (common subset). -/
def isJsSpace (c : Char) : Bool :=
  c = ' ' || c = '\t' || c = '\n' || c = '\r'

/-- JavaScript `String.prototype.trim`. -/
def jsTrim (s : String) : String :=
  String.mk (((s.data.dropWhile isJsSpace).reverse.dropWhile isJsSpace).reverse)

/-- The regex `^\d{10}$` (10-digit mobile number). -/
def isTenDigits (s : String) : Bool :=
  s.length = 10 && s.data.all Char.isDigit

/-- The regex `^\d{12}$` (12-digit transaction id). -/
def isTwelveDigits (s : String) : Bool :=
  s.length = 12 && s.data.all Char.isDigit

/-- Decimal value of a digit string. -/
def digitsToNat (l : List Char) : Nat :=
  l.foldl (fun acc c => acc * 10 + (c.toNat - 48)) 0

/-- JavaScript numeric-string coercion, integer fragment: an optional
sign followed by at least one digit parses, anything else is NaN
(`none`). -/
def strToInt? (s : String) : Option Int :=
  match s.data with
  | [] => none
  | '-' :: rest =>
    if rest ≠ [] && rest.all Char.isDigit then some (-(digitsToNat rest : Int)) else none
  | l => if l.all Char.isDigit then some (digitsToNat l : Int) else none

/-- Mongoose cast of a JSON value to the schema type `Number`
(numbers pass through, numeric strings are cast, anything else fails).
JavaScript numbers are modelled as integers; the claims only involve
integral or absent scores. -/
def castNumber : Jv → Option Int
  | Jv.jnum n => some n
  | Jv.jstr s => strToInt? s
  | _ => none

/-- Mongoose cast of an optional JSON field to `Number`: an absent field
stays absent, a present one must cast. -/
def castOptNumber : Option Jv → Except Unit (Option Int)
  | none => Except.ok none
  | some v =>
    match castNumber v with
    | some n => Except.ok (some n)
    | none => Except.error ()

/-- A concrete stand-in bcrypt hash used only to instantiate witnesses:
like real bcrypt output it starts with the `$2b$10$` prefix, hence never
equals its input. -/
def testHash (s : String) : String := "$2b$10$" ++ s

namespace RevA

/-- Officer document of the head revision's schema (`src/server.js` lines
39-49): no required fields or validators; unique indexes on `mobile`,
`username` and (sparse) `transactionId`; `subscribed` defaults to false. -/
structure Officer where
  id : Nat
  name : String
  address : String
  mobile : String
  username : String
  password : String
  subscribed : Bool
  transactionId : Option String
  subscriptionDate : Option Nat
  createdAt : Nat
deriving DecidableEq, Repr

/-- Mongoose `officer.toObject()` as a field list (schema field order;
absent optional fields are omitted as in a Mongo document). -/
def officerToObject (o : Officer) : List (String × Jv) :=
  [("_id", Jv.jnum o.id), ("name", Jv.jstr o.name),
   ("address", Jv.jstr o.address), ("mobile", Jv.jstr o.mobile),
   ("username", Jv.jstr o.username), ("password", Jv.jstr o.password),
   ("subscribed", Jv.jbool o.subscribed)]
  ++ (match o.transactionId with
      | some t => [("transactionId", Jv.jstr t)]
      | none => [])
  ++ (match o.subscriptionDate with
      | some d => [("subscriptionDate", Jv.jnum d)]
      | none => [])
  ++ [("createdAt", Jv.jnum o.createdAt)]

/-- POST `/login` (`src/server.js` lines 124-132).  `verify` is
`bcrypt.compare` (plaintext, stored hash). -/
def login (verify : String → String → Bool) (st : List Officer)
    (username password : String) : HResp :=
  match st.find? (fun o => o.username = username) with
  | none => errResp 401 "Invalid credentials"
  | some officer =>
    if verify password officer.password then
      { status := 200,
        body := [("message", JField.leaf (Jv.jstr "Login successful")),
                 ("officer", JField.obj (deleteKey "password" (officerToObject officer))),
                 ("subscribed", JField.leaf (Jv.jbool officer.subscribed))] }
    else errResp 401 "Invalid credentials"

/-- POST `/signup` (`src/server.js` lines 135-141): hash the password and
`Officer.create` the body, with no validation in the route and none in
this revision's schema.  A duplicate `username`/`mobile` violates the
unique index; the route has no try/catch, so that error escapes
(`Except.error`). -/
def signup (hash : String → String) (now freshId : Nat) (st : List Officer)
    (name address mobile username password : String) :
    Except Unit (List Officer × HResp) :=
  let h := hash password
  if st.any (fun o => o.username = username || o.mobile = mobile) then
    Except.error ()
  else
    let o : Officer :=
      { id := freshId, name := name, address := address, mobile := mobile,
        username := username, password := h, subscribed := false,
        transactionId := none, subscriptionDate := none, createdAt := now }
    Except.ok (st ++ [o],
      { status := 200,
        body := [("message", JField.leaf (Jv.jstr "Officer created successfully")),
                 ("officer", JField.obj (deleteKey "password" (officerToObject o)))] })

/-- POST `/submit-transaction` (`src/server.js` lines 144-152):
`findOneAndUpdate({username}, {transactionId, subscribed:false})` with no
format or duplicate check in the route; a duplicate `transactionId`
violates the sparse unique index and, with no try/catch in this
revision's route, escapes unhandled (`Except.error`). -/
def submitTransaction (st : List Officer) (username transactionId : String) :
    Except Unit (List Officer × HResp) :=
  match st.find? (fun o => o.username = username) with
  | none => Except.ok (st, errResp 404 "Officer not found")
  | some _ =>
    if st.any (fun p => p.username ≠ username && p.transactionId = some transactionId) then
      Except.error ()
    else
      Except.ok
        (replaceFirst (fun p => p.username = username)
          (fun p => { p with transactionId := some transactionId, subscribed := false }) st,
         msgResp "Transaction submitted successfully")

/-- POST `/admin/activate` (`src/server.js` lines 155-162): find the
officer by `transactionId`, set `subscribed := true` and a fresh
`subscriptionDate`, save.  No already-subscribed check; the
`transactionId` is retained. -/
def adminActivate (now : Nat) (st : List Officer) (transactionId : String) :
    List Officer × HResp :=
  match st.find? (fun o => o.transactionId = some transactionId) with
  | none => (st, errResp 404 "Not found")
  | some _ =>
    (replaceFirst (fun o => o.transactionId = some transactionId)
      (fun o => { o with subscribed := true, subscriptionDate := some now }) st,
     msgResp "Subscription activated successfully")

end RevA

/-- Request body of POST `/transfer/apply` (all fields come from JSON and
may be absent). The `dateOfJoining` arrives as a string and is cast to a
`Date` by mongoose at `create` time. -/
structure TransferBody where
  username : Option String
  transferType : Option String
  applicantName : Option String
  workingDistrict : Option String
  designation : Option String
  dateOfJoining : Option String
  option1 : Option String
  option2 : Option String
  option3 : Option String
  contactNumber : Option String
deriving DecidableEq, Repr

namespace RevA

/-- Result document (`src/server.js` lines 52-59): every field is
optional, `date` defaults to the current time. -/
structure ResultRec where
  username : Option String
  name : Option String
  address : Option String
  score : Option Int
  total : Option Int
  date : Nat
deriving DecidableEq, Repr

/-- Request body of POST `/submit-result`; `score` and `total` are raw
JSON values to be cast by the schema. -/
structure ResultBody where
  username : Option String
  name : Option String
  address : Option String
  score : Option Jv
  total : Option Jv
  date : Option Nat
deriving DecidableEq, Repr

/-- POST `/submit-result` (`src/server.js` lines 181-184):
`Result.create(req.body)` with no validation in the route and no required
field in the schema; only an uncastable `score`/`total` makes the create
throw, and with no try/catch in the route that error escapes
(`Except.error`).  `date` defaults to the server's current time. -/
def submitResult (now : Nat) (st : List ResultRec) (body : ResultBody) :
    Except Unit (List ResultRec × HResp) := do
  let s ← castOptNumber body.score
  let t ← castOptNumber body.total
  Except.ok
    (st ++ [{ username := body.username, name := body.name,
              address := body.address, score := s, total := t,
              date := body.date.getD now }],
     msgResp "Result submitted successfully")

/-- ALLOWED_DESIGNATIONS of the head revision (`src/server.js` lines
105-110); the TransferApplication schema enum (line 78) is the same set. -/
def ALLOWED_DESIGNATIONS : List String :=
  ["SRI", "JRI", "TYPIST", "STENO TYPIST"]

/-- TransferApplication document (`src/server.js` lines 62-91). -/
structure TransferRec where
  id : Nat
  username : String
  transferType : String
  applicantName : String
  workingDistrict : String
  designation : String
  dateOfJoining : Nat
  option1 : String
  option2 : Option String
  option3 : Option String
  contactNumber : String
  createdAt : Nat
deriving DecidableEq, Repr

/-- POST `/transfer/apply` (`src/server.js` lines 194-243): require the
officer to exist (`findOne({username})`; mongoose drops an `undefined`
query value, turning the filter into a match-anything), require a truthy
value for each field of the fixed list, normalize the designation with
`trim().toUpperCase()`, check the allow-list, then
`TransferApplication.create({...req.body, designation})`.  A create
rejected by the schema (missing/invalid `transferType`, uncastable
`dateOfJoining` under `castDate`) lands in the route's catch, answering
500. -/
def applyTransfer (castDate : String → Option Nat) (now freshId : Nat)
    (officers : List Officer) (st : List TransferRec) (body : TransferBody) :
    List TransferRec × HResp :=
  let officerQuery : Officer → Bool := fun o =>
    match body.username with
    | none => true
    | some u => o.username = u
  match officers.find? officerQuery with
  | none => (st, errResp 404 "Officer not found")
  | some _ =>
    if ¬ truthy body.username then (st, errResp 400 "username is required")
    else if ¬ truthy body.applicantName then (st, errResp 400 "applicantName is required")
    else if ¬ truthy body.workingDistrict then (st, errResp 400 "workingDistrict is required")
    else if ¬ truthy body.designation then (st, errResp 400 "designation is required")
    else if ¬ truthy body.dateOfJoining then (st, errResp 400 "dateOfJoining is required")
    else if ¬ truthy body.option1 then (st, errResp 400 "option1 is required")
    else if ¬ truthy body.contactNumber then (st, errResp 400 "contactNumber is required")
    else
      let designation := jsToUpperCase (jsTrim (body.designation.getD ""))
      if ¬ ALLOWED_DESIGNATIONS.contains designation then
        (st, errResp 400 "Invalid designation")
      else
        match castDate (body.dateOfJoining.getD "") with
        | none => (st, errResp 500 "Server error")
        | some doj =>
          if body.transferType.getD "" = "One Way" || body.transferType.getD "" = "Mutual" then
            (st ++ [{ id := freshId, username := body.username.getD "",
                      transferType := body.transferType.getD "",
                      applicantName := body.applicantName.getD "",
                      workingDistrict := body.workingDistrict.getD "",
                      designation := designation, dateOfJoining := doj,
                      option1 := body.option1.getD "",
                      option2 := body.option2, option3 := body.option3,
                      contactNumber := body.contactNumber.getD "", createdAt := now }],
             { status := 200,
               body := [("message", JField.leaf (Jv.jstr "Transfer application submitted successfully")),
                        ("id", JField.leaf (Jv.jnum freshId))] })
          else (st, errResp 500 "Server error")

/-- GET `/transfer/sri` (`src/server.js` lines 259-262):
`TransferApplication.find({designation: "SRI"})`. -/
def transferSri (st : List TransferRec) : List TransferRec :=
  st.filter (fun r => r.designation = "SRI")

end RevA

namespace P2

/-- Officer document of the `part_002` schema (lines 37-67): all profile
fields required, 10-digit mobile validator, sparse unique 12-digit
`transactionId`, `subscribed` defaults to false. -/
structure Officer where
  id : Nat
  name : String
  address : String
  mobile : String
  username : String
  password : String
  subscribed : Bool
  transactionId : Option String
  subscriptionDate : Option Nat
  createdAt : Nat
deriving DecidableEq, Repr

/-- Admin document (`part_002` lines 32-35). -/
structure Admin where
  username : String
  password : String
deriving DecidableEq, Repr

/-- Mongoose `officer.toObject()` for the `part_002` schema. -/
def officerToObject (o : Officer) : List (String × Jv) :=
  [("_id", Jv.jnum o.id), ("name", Jv.jstr o.name),
   ("address", Jv.jstr o.address), ("mobile", Jv.jstr o.mobile),
   ("username", Jv.jstr o.username), ("password", Jv.jstr o.password),
   ("subscribed", Jv.jbool o.subscribed)]
  ++ (match o.transactionId with
      | some t => [("transactionId", Jv.jstr t)]
      | none => [])
  ++ (match o.subscriptionDate with
      | some d => [("subscriptionDate", Jv.jnum d)]
      | none => [])
  ++ [("createdAt", Jv.jnum o.createdAt)]

/-- POST `/signup` (`part_002` lines 131-163): reject a non-10-digit
mobile, then reject an existing username or mobile
(`findOne({$or: [{username}, {mobile}]})`), then hash the password,
create the officer and answer with the record minus its password. -/
def signup (hash : String → String) (now freshId : Nat) (st : List Officer)
    (name address mobile username password : String) : List Officer × HResp :=
  if ¬ isTenDigits mobile then
    (st, errResp 400 "Invalid mobile number")
  else if st.any (fun o => o.username = username || o.mobile = mobile) then
    (st, errResp 400 "Username or mobile number already exists")
  else
    let o : Officer :=
      { id := freshId, name := name, address := address, mobile := mobile,
        username := username, password := hash password, subscribed := false,
        transactionId := none, subscriptionDate := none, createdAt := now }
    (st ++ [o],
     { status := 200,
       body := [("message", JField.leaf (Jv.jstr "Officer created successfully")),
                ("officer", JField.obj (deleteKey "password" (officerToObject o)))] })

/-- Request body of POST `/submit-transaction` and `/admin/activate`. -/
structure TxBody where
  transactionId : Option String
  username : Option String
deriving DecidableEq, Repr

/-- POST `/submit-transaction` (`part_002` lines 172-213): presence
check, strict 12-digit format check, duplicate-transactionId pre-check
(`findOne({transactionId})`), then
`findOneAndUpdate({username}, {transactionId, subscriptionDate, subscribed:false})`. -/
def submitTransaction (now : Nat) (st : List Officer) (body : TxBody) :
    List Officer × HResp :=
  if ¬ truthy body.transactionId || ¬ truthy body.username then
    (st, errResp 400 "Transaction ID and username are required")
  else
    let tid := body.transactionId.getD ""
    let u := body.username.getD ""
    if ¬ isTwelveDigits tid then
      (st, errResp 400 "Transaction ID must be exactly 12 digits")
    else if st.any (fun o => o.transactionId = some tid) then
      (st, errResp 400 "This transaction ID has already been used")
    else
      match st.find? (fun o => o.username = u) with
      | none => (st, errResp 404 "Officer not found")
      | some _ =>
        (replaceFirst (fun o => o.username = u)
          (fun o => { o with transactionId := some tid,
                             subscriptionDate := some now,
                             subscribed := false }) st,
         { status := 200,
           body := [("message", JField.leaf (Jv.jstr "Transaction submitted successfully")),
                    ("transactionId", JField.leaf (Jv.jstr tid))] })

/-- Second half of POST `/admin/activate` (`part_002` lines 246-270):
404 when no officer was located, 400 when the located officer is already
subscribed, otherwise set `subscribed`, clear `transactionId` to null and
stamp `subscriptionDate`. -/
def activateFound (now : Nat) (st : List Officer) :
    Option Officer → List Officer × HResp
  | none => (st, errResp 404 "Officer not found")
  | some o =>
    if o.subscribed then (st, errResp 400 "Officer is already subscribed")
    else
      let upd : Officer → Officer := fun p =>
        { p with subscribed := true, transactionId := none,
                 subscriptionDate := some now }
      (replaceFirst (fun p => p.id = o.id) upd st,
       { status := 200,
         body := [("message", JField.leaf (Jv.jstr "Subscription activated successfully")),
                  ("officer", JField.obj (deleteKey "password" (officerToObject (upd o))))] })

/-- POST `/admin/activate` (`part_002` lines 227-275): locate the officer
by a truthy `transactionId` (validated to 12 digits) or else by a truthy
`username`; 400 when neither is given; then `activateFound`. -/
def adminActivate (now : Nat) (st : List Officer) (body : TxBody) :
    List Officer × HResp :=
  if truthy body.transactionId then
    let tid := body.transactionId.getD ""
    if ¬ isTwelveDigits tid then (st, errResp 400 "Invalid transaction ID format")
    else activateFound now st (st.find? (fun o => o.transactionId = some tid))
  else if truthy body.username then
    activateFound now st (st.find? (fun o => o.username = body.username.getD ""))
  else (st, errResp 400 "Provide either transactionId or username")

/-- POST `/admin/reset-password` (`part_002` lines 278-292, identical in
`part_000` lines 185-199): no authentication and no existence check; hash
the submitted password, `findOneAndUpdate({username:'admin'})` (a no-op
when no such record exists) and always answer 200. -/
def resetAdminPassword (hash : String → String) (admins : List Admin)
    (password : String) : List Admin × HResp :=
  (replaceFirst (fun a => a.username = "admin")
    (fun a => { a with password := hash password }) admins,
   msgResp "Admin password updated successfully")

end P2

namespace P1b

/-- ALLOWED_DESIGNATIONS of the six-designation revision
(`src/unnamed/part_001` line 398); the schema enum (line 386) is the same
set.  Note the two Tahsildar entries are mixed-case. -/
def ALLOWED_DESIGNATIONS : List String :=
  ["SRI", "JRI", "TYPIST", "STENO TYPIST", "Deputy Tahsildar", "Tahsildar"]

/-- TransferApplication document (`src/unnamed/part_001` lines 377-395). -/
structure TransferRec where
  id : Nat
  username : String
  transferType : String
  applicantName : String
  workingDistrict : String
  designation : String
  dateOfJoining : Nat
  option1 : String
  option2 : Option String
  option3 : Option String
  contactNumber : String
  createdAt : Nat
deriving DecidableEq, Repr

/-- POST `/transfer/apply` (`src/unnamed/part_001` lines 504-516):
normalize `req.body.designation?.trim().toUpperCase()` (an absent
designation stays `undefined`, which is not in the allow-list), check the
allow-list, then `TransferApplication.create({...req.body, designation})`.
This route has no try/catch: a create rejected by the schema (a missing
required field, an invalid `transferType`, an uncastable `dateOfJoining`)
escapes unhandled (`Except.error`).  Mongoose `required` rejects empty
strings, hence the truthiness checks. -/
def applyTransfer (castDate : String → Option Nat) (now freshId : Nat)
    (st : List TransferRec) (body : TransferBody) :
    Except Unit (List TransferRec × HResp) :=
  match body.designation with
  | none => Except.ok (st, errResp 400 "Invalid designation")
  | some d =>
    let designation := jsToUpperCase (jsTrim d)
    if ¬ ALLOWED_DESIGNATIONS.contains designation then
      Except.ok (st, errResp 400 "Invalid designation")
    else
      match castDate (body.dateOfJoining.getD "") with
      | none => Except.error ()
      | some doj =>
        if truthy body.username && truthy body.applicantName
            && truthy body.workingDistrict && truthy body.dateOfJoining
            && truthy body.option1 && truthy body.contactNumber
            && (body.transferType.getD "" = "One Way"
                || body.transferType.getD "" = "Mutual") then
          Except.ok
            (st ++ [{ id := freshId, username := body.username.getD "",
                      transferType := body.transferType.getD "",
                      applicantName := body.applicantName.getD "",
                      workingDistrict := body.workingDistrict.getD "",
                      designation := designation, dateOfJoining := doj,
                      option1 := body.option1.getD "",
                      option2 := body.option2, option3 := body.option3,
                      contactNumber := body.contactNumber.getD "", createdAt := now }],
             { status := 200,
               body := [("message", JField.leaf (Jv.jstr "Transfer application submitted")),
                        ("id", JField.leaf (Jv.jnum freshId))] })
        else Except.error ()

/-- GET `/transfer/deputytahsildar` (`src/unnamed/part_001` lines
534-536): `TransferApplication.find({designation: "Deputy Tahsildar"})`. -/
def transferDeputyTahsildar (st : List TransferRec) : List TransferRec :=
  st.filter (fun r => r.designation = "Deputy Tahsildar")

/-- GET `/transfer/tahsildar` (`src/unnamed/part_001` lines 537-539). -/
def transferTahsildar (st : List TransferRec) : List TransferRec :=
  st.filter (fun r => r.designation = "Tahsildar")

/-- Transfer stores reachable through `/transfer/apply` from the empty
collection (the only route of this revision that writes transfer
records). -/
inductive Reachable : List TransferRec → Prop where
  | nil : Reachable []
  | step (castDate : String → Option Nat) (now freshId : Nat)
      (body : TransferBody) (st st2 : List TransferRec) (r : HResp) :
      Reachable st →
      applyTransfer castDate now freshId st body = Except.ok (st2, r) →
      Reachable st2

end P1b

/-! Concrete stores and request bodies used to instantiate the theorems. -/

/-- A freshly signed-up officer of the head revision. -/
def c1Officer : RevA.Officer :=
  { id := 1, name := "Asha", address := "Chennai", mobile := "9876543210",
    username := "o1", password := "$2b$10$pw123456", subscribed := false,
    transactionId := none, subscriptionDate := none, createdAt := 0 }

/-- The store after `c1Officer` submits transaction `123456789012`. -/
def c1AfterSubmit : List RevA.Officer :=
  [{ c1Officer with transactionId := some "123456789012" }]

/-- The store after the first activation at time 100 (the head revision
retains the transactionId). -/
def c1AfterActivate : List RevA.Officer :=
  [{ c1Officer with transactionId := some "123456789012",
                    subscribed := true, subscriptionDate := some 100 }]

/-- An already-subscribed `part_002` officer (transactionId cleared by
activation, subscriptionDate stamped at 100). -/
def c1SubOfficerP2 : P2.Officer :=
  { id := 1, name := "Asha", address := "Chennai", mobile := "9876543210",
    username := "o1", password := "$2b$10$pw123456", subscribed := true,
    transactionId := none, subscriptionDate := some 100, createdAt := 0 }

/-- Head-revision officer holding transaction `123456789012`. -/
def c2Holder : RevA.Officer :=
  { id := 1, name := "Asha", address := "Chennai", mobile := "1111111111",
    username := "a", password := "$2b$10$pw123456", subscribed := false,
    transactionId := some "123456789012", subscriptionDate := none, createdAt := 0 }

/-- Head-revision officer with no transaction yet. -/
def c2Other : RevA.Officer :=
  { id := 2, name := "Banu", address := "Madurai", mobile := "2222222222",
    username := "b", password := "$2b$10$pw654321", subscribed := false,
    transactionId := none, subscriptionDate := none, createdAt := 0 }

/-- `part_002` officer holding transaction `123456789012`. -/
def c2HolderP2 : P2.Officer :=
  { id := 1, name := "Asha", address := "Chennai", mobile := "1111111111",
    username := "a", password := "$2b$10$pw123456", subscribed := false,
    transactionId := some "123456789012", subscriptionDate := some 10, createdAt := 0 }

/-- `part_002` officer with no transaction yet. -/
def c2OtherP2 : P2.Officer :=
  { id := 2, name := "Banu", address := "Madurai", mobile := "2222222222",
    username := "b", password := "$2b$10$pw654321", subscribed := false,
    transactionId := none, subscriptionDate := none, createdAt := 0 }

/-- The officer created by the head-revision signup counterexample: a
5-digit mobile is accepted unchecked. -/
def c4Created : RevA.Officer :=
  { id := 1, name := "Nila", address := "Salem", mobile := "12345",
    username := "o9", password := testHash "pw123456", subscribed := false,
    transactionId := none, subscriptionDate := none, createdAt := 0 }

/-- An entirely empty `/submit-result` body. -/
def c7EmptyBody : RevA.ResultBody :=
  { username := none, name := none, address := none,
    score := none, total := none, date := none }

/-- A `/submit-result` body with a non-numeric score. -/
def c7BadScoreBody : RevA.ResultBody :=
  { username := some "o1", name := some "Asha", address := none,
    score := some (Jv.jstr "abc"), total := some (Jv.jnum 100), date := none }

/-- A complete transfer application body, designation lowercase `sri`. -/
def c8SriBody : TransferBody :=
  { username := some "o1", transferType := some "One Way",
    applicantName := some "Asha", workingDistrict := some "Chennai",
    designation := some "sri", dateOfJoining := some "2020-01-01",
    option1 := some "Madurai", option2 := none, option3 := none,
    contactNumber := some "9876543210" }

/-- The same transfer application with designation `Clerk`. -/
def c8ClerkBody : TransferBody :=
  { c8SriBody with designation := some "Clerk" }

/-- The same transfer application with designation `Deputy Tahsildar`. -/
def c10DeputyBody : TransferBody :=
  { c8SriBody with designation := some "Deputy Tahsildar" }

/-- The same transfer application with designation `Tahsildar`. -/
def c10TahsildarBody : TransferBody :=
  { c8SriBody with designation := some "Tahsildar" }

/-- A stand-in for `bcrypt.compare`: plaintext `p` matches a stored
`testHash` value. Used only to instantiate witnesses. -/
def testVerify (p stored : String) : Bool := testHash p = stored

/-! Helper lemmas shared by the claim theorems. -/

/-- `Char.ofNat` on a valid code point round-trips through `toNat`. -/
theorem charToNat_ofNat_valid (n : Nat) (h : n.isValidChar) :
    (Char.ofNat n).toNat = n := by
  unfold Char.ofNat
  rw [dif_pos h]
  simp [Char.ofNatAux, Char.toNat, UInt32.toNat, UInt32.ofNatCore]

/-- `jsCharToUpper` never produces a lowercase ASCII letter. -/
theorem jsCharToUpper_not_lowercase (c : Char) :
    ¬(97 ≤ (jsCharToUpper c).toNat ∧ (jsCharToUpper c).toNat ≤ 122) := by
  unfold jsCharToUpper
  split
  case isTrue h =>
    have hv : (c.toNat - 32).isValidChar := Or.inl (by omega)
    rw [charToNat_ofNat_valid _ hv]
    omega
  case isFalse h => omega

/-- No character of a `jsToUpperCase` output is a lowercase ASCII letter. -/
theorem jsToUpperCase_no_lowercase (x : String) (c : Char)
    (hc : c ∈ (jsToUpperCase x).data) :
    ¬(97 ≤ c.toNat ∧ c.toNat ≤ 122) := by
  unfold jsToUpperCase at hc
  simp only [String.mk] at hc
  obtain ⟨a, _, rfl⟩ := List.mem_map.mp hc
  exact jsCharToUpper_not_lowercase a

/-- No JavaScript `toUpperCase` output equals the mixed-case string
`Deputy Tahsildar`. -/
theorem jsToUpperCase_ne_deputy (x : String) :
    jsToUpperCase x ≠ "Deputy Tahsildar" := by
  intro h
  have hmem : 'e' ∈ (jsToUpperCase x).data := by
    rw [h]; decide
  exact jsToUpperCase_no_lowercase x 'e' hmem (by decide)

/-- No JavaScript `toUpperCase` output equals the mixed-case string
`Tahsildar`. -/
theorem jsToUpperCase_ne_tahsildar (x : String) :
    jsToUpperCase x ≠ "Tahsildar" := by
  intro h
  have hmem : 'a' ∈ (jsToUpperCase x).data := by
    rw [h]; decide
  exact jsToUpperCase_no_lowercase x 'a' hmem (by decide)

/-- `replaceFirst` is the identity when nothing matches. -/
theorem replaceFirst_of_none (p : α → Bool) (f : α → α) (l : List α)
    (h : ∀ x ∈ l, p x = false) : replaceFirst p f l = l := by
  induction l with
  | nil => rfl
  | cons x xs ih =>
    unfold replaceFirst
    rw [h x (List.mem_cons_self x xs)]
    simp only [Bool.false_eq_true, if_false, List.cons.injEq, true_and]
    exact ih (fun y hy => h y (List.mem_cons_of_mem x hy))

/-! Claim C1. -/

/-- C1 counterexample: in the head revision (`src/server.js` lines
155-162) `/admin/activate` has no already-subscribed check and retains
the transactionId, so after submit (store `c1AfterSubmit`) and a first
activation at time 100 (store `c1AfterActivate`), a second activation at
time 200 on the same transactionId answers 200 success — not the claimed
ConflictError — and overwrites `subscriptionDate` from 100 to 200. -/
theorem c1_activate_not_idempotent_headrev :
    RevA.submitTransaction [c1Officer] "o1" "123456789012"
      = Except.ok (c1AfterSubmit, msgResp "Transaction submitted successfully")
    ∧ RevA.adminActivate 100 c1AfterSubmit "123456789012"
      = (c1AfterActivate, msgResp "Subscription activated successfully")
    ∧ (RevA.adminActivate 200 c1AfterActivate "123456789012").2
      = msgResp "Subscription activated successfully"
    ∧ (RevA.adminActivate 200 c1AfterActivate "123456789012").2.status = 200
    ∧ (RevA.adminActivate 200 c1AfterActivate "123456789012").1.map
        RevA.Officer.subscriptionDate = [some 200]
    ∧ c1AfterActivate.map RevA.Officer.subscriptionDate = [some 100] := by
  decide

/-- C1 (amended): in the `part_002` revision, a second
`activateSubscription` on an already-subscribed officer located by
username answers the 400 ConflictError `Officer is already subscribed`
and leaves the store — hence every `subscriptionDate` — unchanged.  (The
head revision of `src/server.js` has no already-subscribed check, so
there a second call succeeds again and overwrites `subscriptionDate`;
and `part_002` clears the transactionId at activation, so a repeat call
locating by the old transactionId answers 404.) -/
theorem c1_activate_conflict_p2 (now : Nat) (st : List P2.Officer)
    (o : P2.Officer) (u : String) (hu : u ≠ "")
    (hfind : st.find? (fun p => p.username = u) = some o)
    (hsub : o.subscribed = true) :
    P2.adminActivate now st { transactionId := none, username := some u }
      = (st, errResp 400 "Officer is already subscribed") := by
  unfold P2.adminActivate
  simp [truthy, hu, hfind, P2.activateFound, hsub]

/-- C1 witness: the amended theorem applied to a concrete
already-subscribed officer. -/
theorem c1_activate_conflict_p2_witness :
    P2.adminActivate 200 [c1SubOfficerP2] { transactionId := none, username := some "o1" }
      = ([c1SubOfficerP2], errResp 400 "Officer is already subscribed") :=
  c1_activate_conflict_p2 200 [c1SubOfficerP2] c1SubOfficerP2 "o1"
    (by decide) (by decide) (by decide)

/-! Claim C2. -/

/-- C2 counterexample: in the head revision (`src/server.js` lines
144-152) `/submit-transaction` has no duplicate check and no try/catch;
when officer `b` submits the transactionId already attached to officer
`a`, the sparse unique index rejects the write and the duplicate-key
error escapes the route unhandled (`Except.error`) — no ConflictError
response is produced (no officer record is mutated either, but the
claimed 400 ConflictError never reaches the caller). -/
theorem c2_duplicate_tx_unhandled_headrev :
    RevA.submitTransaction [c2Holder, c2Other] "b" "123456789012"
      = Except.error () := by
  decide

/-- C2 (amended): in the `part_002` revision (and in the older
`src/server.js` revision, which catches the duplicate-key error) a
`submitTransaction` whose transactionId is already attached to a
different officer answers the 400 ConflictError
`This transaction ID has already been used` and leaves the store — hence
both officers' records — unchanged.  In the head revision of
`src/server.js` the unique index still prevents any mutation, but the
duplicate-key error escapes the route unhandled, so no ConflictError
response is sent. -/
theorem c2_duplicate_tx_conflict_p2 (now : Nat) (st : List P2.Officer)
    (tid u : String) (o : P2.Officer) (ho : o ∈ st)
    (hot : o.transactionId = some tid) (_hdiff : o.username ≠ u)
    (htid : isTwelveDigits tid = true) (hu : u ≠ "") :
    P2.submitTransaction now st { transactionId := some tid, username := some u }
      = (st, errResp 400 "This transaction ID has already been used") := by
  have htr : tid ≠ "" := by
    intro h
    rw [h] at htid
    simp [isTwelveDigits] at htid
  have hany : st.any (fun p => p.transactionId = some tid) = true :=
    List.any_eq_true.mpr ⟨o, ho, by simp [hot]⟩
  unfold P2.submitTransaction
  simp [truthy, htr, hu, htid, hany]

/-- C2 witness: the amended theorem applied to a concrete two-officer
store where officer `a` already holds the submitted transactionId. -/
theorem c2_duplicate_tx_conflict_p2_witness :
    P2.submitTransaction 50 [c2HolderP2, c2OtherP2]
        { transactionId := some "123456789012", username := some "b" }
      = ([c2HolderP2, c2OtherP2], errResp 400 "This transaction ID has already been used") :=
  c2_duplicate_tx_conflict_p2 50 [c2HolderP2, c2OtherP2] "123456789012" "b"
    c2HolderP2 (by decide) (by decide) (by decide) (by decide) (by decide)

/-! Claim C3. -/

/-- C3 counterexample: in the `part_002` revision the
duplicate-transactionId pre-check runs before the username lookup, so a
call with a valid 12-digit transactionId that is already in use and a
username matching no officer answers the 400 conflict error, not the
claimed NotFoundError. -/
theorem c3_unknown_username_conflict_first :
    P2.submitTransaction 5 [c2HolderP2]
        { transactionId := some "123456789012", username := some "ghost" }
      = ([c2HolderP2], errResp 400 "This transaction ID has already been used")
    ∧ [c2HolderP2].find? (fun o => o.username = "ghost") = none
    ∧ isTwelveDigits "123456789012" = true := by
  decide

/-- C3 (amended): in the canonical (`part_002`) contract a
`submitTransaction` whose transactionId is not a 12-digit string answers
a 400 ValidationError (the format message, or the presence message when
the transactionId is empty) with the store untouched, before any officer
record is consulted; and when the format is valid, the transactionId is
not already attached to any officer, and the username matches no
officer, it answers the 404 NotFoundError, again with the store
untouched. -/
theorem c3_submit_tx_validation_p2 (now : Nat) (st : List P2.Officer)
    (tid u : String) (hu : u ≠ "") :
    (isTwelveDigits tid = false →
      P2.submitTransaction now st { transactionId := some tid, username := some u }
        = (st, errResp 400 "Transaction ID must be exactly 12 digits")
      ∨ (tid = ""
         ∧ P2.submitTransaction now st { transactionId := some tid, username := some u }
             = (st, errResp 400 "Transaction ID and username are required")))
    ∧ (isTwelveDigits tid = true →
       st.any (fun o => o.transactionId = some tid) = false →
       st.find? (fun o => o.username = u) = none →
       P2.submitTransaction now st { transactionId := some tid, username := some u }
         = (st, errResp 404 "Officer not found")) := by
  constructor
  · intro hbad
    by_cases hemp : tid = ""
    · right
      refine ⟨hemp, ?_⟩
      unfold P2.submitTransaction
      simp [truthy, hemp]
    · left
      unfold P2.submitTransaction
      simp [truthy, hemp, hu, hbad]
  · intro hgood hfresh hnone
    unfold P2.submitTransaction
    have htr : tid ≠ "" := by
      intro h
      rw [h] at hgood
      simp [isTwelveDigits] at hgood
    simp [truthy, htr, hu, hgood, hfresh, hnone]

/-- C3 witness: both branches of the amended theorem at concrete inputs
(a 5-character transactionId, and a fresh valid one with an unknown
username). -/
theorem c3_submit_tx_validation_p2_witness :
    (P2.submitTransaction 5 [c2OtherP2] { transactionId := some "12345", username := some "b" }
       = ([c2OtherP2], errResp 400 "Transaction ID must be exactly 12 digits")
     ∨ ("12345" = ""
        ∧ P2.submitTransaction 5 [c2OtherP2] { transactionId := some "12345", username := some "b" }
            = ([c2OtherP2], errResp 400 "Transaction ID and username are required")))
    ∧ P2.submitTransaction 5 [c2OtherP2] { transactionId := some "999999999999", username := some "ghost" }
        = ([c2OtherP2], errResp 404 "Officer not found") :=
  ⟨(c3_submit_tx_validation_p2 5 [c2OtherP2] "12345" "b" (by decide)).1 (by decide),
   (c3_submit_tx_validation_p2 5 [c2OtherP2] "999999999999" "ghost" (by decide)).2
     (by decide) (by decide) (by decide)⟩

/-! Claim C4. -/

/-- C4 counterexample: the head revision's `/signup` (`src/server.js`
lines 135-141) performs no mobile validation and no duplicate pre-check:
`signup` with the 5-digit mobile `12345` answers 200 and creates the
officer record `c4Created` instead of the claimed 400 ValidationError. -/
theorem c4_signup_unvalidated_headrev :
    RevA.signup testHash 0 1 [] "Nila" "Salem" "12345" "o9" "pw123456"
      = Except.ok ([c4Created],
          { status := 200,
            body := [("message", JField.leaf (Jv.jstr "Officer created successfully")),
                     ("officer", JField.obj (deleteKey "password" (RevA.officerToObject c4Created)))] })
    ∧ isTenDigits "12345" = false := by
  decide

/-- C4 (amended): in the `part_001`/`part_002` revisions `signup` answers
the 400 ValidationError `Invalid mobile number` when the mobile is not
exactly 10 digits, and the 400 error
`Username or mobile number already exists` when the username or mobile is
already registered — in both cases creating nothing.  The head revision
of `src/server.js` performs neither check and creates the record. -/
theorem c4_signup_validation_p2 (hash : String → String) (now freshId : Nat)
    (st : List P2.Officer) (name address mobile username password : String) :
    (isTenDigits mobile = false →
      P2.signup hash now freshId st name address mobile username password
        = (st, errResp 400 "Invalid mobile number"))
    ∧ (isTenDigits mobile = true →
       st.any (fun o => o.username = username || o.mobile = mobile) = true →
       P2.signup hash now freshId st name address mobile username password
         = (st, errResp 400 "Username or mobile number already exists")) := by
  constructor
  · intro hbad
    unfold P2.signup
    simp [hbad]
  · intro hok hdup
    unfold P2.signup
    simp [hok, hdup]

/-- C4 witness: both branches of the amended theorem at concrete inputs
(the spec's `12345` scenario, and a duplicate-username signup). -/
theorem c4_signup_validation_p2_witness :
    P2.signup testHash 0 1 [] "Nila" "Salem" "12345" "o9" "pw123456"
      = ([], errResp 400 "Invalid mobile number")
    ∧ P2.signup testHash 0 3 [c2OtherP2] "Banu" "Madurai" "2222222222" "b" "pw"
      = ([c2OtherP2], errResp 400 "Username or mobile number already exists") :=
  ⟨(c4_signup_validation_p2 testHash 0 1 [] "Nila" "Salem" "12345" "o9" "pw123456").1
     (by decide),
   (c4_signup_validation_p2 testHash 0 3 [c2OtherP2] "Banu" "Madurai" "2222222222" "b" "pw").2
     (by decide) (by decide)⟩

/-! Claim C5. -/

/-- C5: in the `part_002` revision every valid signup stores exactly the
bcrypt hash of the submitted plaintext as the officer's password — hence
(bcrypt output never being its own input, here the hypothesis `hhash`)
never the plaintext itself — and the success response carries the created
record with the `password` key deleted, so no `password` field occurs in
the response's officer representation. -/
theorem c5_signup_password_hygiene (hash : String → String) (now freshId : Nat)
    (st : List P2.Officer) (name address mobile username password : String)
    (hmob : isTenDigits mobile = true)
    (hnew : st.any (fun o => o.username = username || o.mobile = mobile) = false)
    (hhash : hash password ≠ password) :
    ∃ o : P2.Officer,
      (P2.signup hash now freshId st name address mobile username password).1 = st ++ [o]
      ∧ o.password = hash password
      ∧ o.password ≠ password
      ∧ (P2.signup hash now freshId st name address mobile username password).2
          = { status := 200,
              body := [("message", JField.leaf (Jv.jstr "Officer created successfully")),
                       ("officer", JField.obj (deleteKey "password" (P2.officerToObject o)))] }
      ∧ "password" ∉ (deleteKey "password" (P2.officerToObject o)).map Prod.fst := by
  refine ⟨{ id := freshId, name := name, address := address, mobile := mobile,
            username := username, password := hash password, subscribed := false,
            transactionId := none, subscriptionDate := none, createdAt := now },
          ?_, rfl, hhash, ?_, ?_⟩
  · unfold P2.signup
    simp [hmob, hnew]
  · unfold P2.signup
    simp [hmob, hnew]
  · simp [deleteKey, P2.officerToObject]

/-- C5 witness: a concrete valid signup under the stand-in bcrypt. -/
theorem c5_signup_password_hygiene_witness :
    ∃ o : P2.Officer,
      (P2.signup testHash 7 1 [] "Asha" "Chennai" "9876543210" "o1" "pw123456").1 = [] ++ [o]
      ∧ o.password = testHash "pw123456"
      ∧ o.password ≠ "pw123456"
      ∧ (P2.signup testHash 7 1 [] "Asha" "Chennai" "9876543210" "o1" "pw123456").2
          = { status := 200,
              body := [("message", JField.leaf (Jv.jstr "Officer created successfully")),
                       ("officer", JField.obj (deleteKey "password" (P2.officerToObject o)))] }
      ∧ "password" ∉ (deleteKey "password" (P2.officerToObject o)).map Prod.fst :=
  c5_signup_password_hygiene testHash 7 1 [] "Asha" "Chennai" "9876543210" "o1" "pw123456"
    (by decide) (by decide) (by decide)

/-! Claim C6. -/

/-- C6: in the officer `/login` route a wrong password for a known
username and any password for an unknown username produce the same
response — status 401 with body `{ error: 'Invalid credentials' }` — so
the caller cannot distinguish the two cases. -/
theorem c6_login_indistinguishable (verify : String → String → Bool)
    (st : List RevA.Officer) (u1 p1 u2 p2 : String) (o : RevA.Officer)
    (h1 : st.find? (fun q => q.username = u1) = none)
    (h2 : st.find? (fun q => q.username = u2) = some o)
    (hbad : verify p2 o.password = false) :
    RevA.login verify st u1 p1 = RevA.login verify st u2 p2
    ∧ RevA.login verify st u1 p1 = errResp 401 "Invalid credentials" := by
  unfold RevA.login
  rw [h1, h2]
  simp [hbad]

/-- C6 witness: a concrete store where `ghost` is unknown and `o1` is
known but supplies the wrong password. -/
theorem c6_login_indistinguishable_witness :
    RevA.login testVerify [c1Officer] "ghost" "whatever"
      = RevA.login testVerify [c1Officer] "o1" "wrongpw"
    ∧ RevA.login testVerify [c1Officer] "ghost" "whatever"
      = errResp 401 "Invalid credentials" :=
  c6_login_indistinguishable testVerify [c1Officer] "ghost" "whatever" "o1" "wrongpw"
    c1Officer (by decide) (by decide) (by decide)

/-! Claim C7. -/

/-- C7 counterexample: `/submit-result` (`src/server.js` lines 181-184)
is `Result.create(req.body)` with no validation in the route and no
required field in the schema, so a body with no username and no
score/total is appended anyway (with the server time 77 as its date) and
answered 200 — not the claimed ValidationError. -/
theorem c7_submit_result_unvalidated :
    RevA.submitResult 77 [] c7EmptyBody
      = Except.ok ([{ username := none, name := none, address := none,
                      score := none, total := none, date := 77 }],
                   msgResp "Result submitted successfully") := by
  decide

/-- C7 (amended): `/submit-result` validates nothing: whenever the
optional `score`/`total` values cast to numbers (absent fields included),
the record is appended as-is — username present or not — with the
server's current time as its date when the body carries none, and
answered 200; when a provided `score` or `total` does not cast, the
create's rejection escapes the route unhandled (no record is appended,
but no ValidationError response is sent either). -/
theorem c7_submit_result_behavior (now : Nat) (st : List RevA.ResultRec)
    (body : RevA.ResultBody) :
    (∀ s t, castOptNumber body.score = Except.ok s →
       castOptNumber body.total = Except.ok t →
       RevA.submitResult now st body
         = Except.ok (st ++ [{ username := body.username, name := body.name,
                               address := body.address, score := s, total := t,
                               date := body.date.getD now }],
                      msgResp "Result submitted successfully"))
    ∧ ((castOptNumber body.score = Except.error ()
        ∨ castOptNumber body.total = Except.error ()) →
       RevA.submitResult now st body = Except.error ()) := by
  constructor
  · intro s t hs ht
    unfold RevA.submitResult
    rw [hs, ht]
    rfl
  · intro hbad
    unfold RevA.submitResult
    rcases hbad with hbad | hbad
    · rw [hbad]
      rfl
    · rcases castOptNumber body.score with _ | s
      · rfl
      · rw [hbad]
        rfl

/-- C7 witness: both branches at concrete bodies — a dateless record
appended with the server time, and a non-numeric score escaping
unhandled. -/
theorem c7_submit_result_behavior_witness :
    RevA.submitResult 77 [] c7EmptyBody
      = Except.ok ([{ username := none, name := none, address := none,
                      score := none, total := none, date := 77 }],
                   msgResp "Result submitted successfully")
    ∧ RevA.submitResult 77 [] c7BadScoreBody = Except.error () :=
  ⟨(c7_submit_result_behavior 77 [] c7EmptyBody).1 none none (by decide) (by decide),
   (c7_submit_result_behavior 77 [] c7BadScoreBody).2 (by decide)⟩

/-! Claim C8. -/

/-- C8: in `/transfer/apply` (head revision) the submitted designation is
trimmed and uppercased before the allow-list check and before
persistence: under the route's other preconditions (officer exists, the
required fields are truthy, the date casts, the transferType is valid) a
request with designation `sri` succeeds, the stored record's designation
is `SRI` and the record is returned by the `/transfer/sri` query, while a
request with designation `Clerk` (uppercased to `CLERK`, not in the
allow-list) answers the 400 ValidationError `Invalid designation` and
stores nothing. -/
theorem c8_designation_normalized (castDate : String → Option Nat)
    (now freshId : Nat) (officers : List RevA.Officer)
    (st : List RevA.TransferRec) (body : TransferBody)
    (u tt : String) (o : RevA.Officer) (dj : Nat)
    (hbodyu : body.username = some u) (hu : u ≠ "")
    (hofficer : officers.find? (fun p => p.username = u) = some o)
    (happ : truthy body.applicantName = true)
    (hwd : truthy body.workingDistrict = true)
    (hdoj : truthy body.dateOfJoining = true)
    (hopt : truthy body.option1 = true)
    (hcn : truthy body.contactNumber = true)
    (hdate : castDate (body.dateOfJoining.getD "") = some dj)
    (htt : body.transferType = some tt)
    (httv : tt = "One Way" ∨ tt = "Mutual") :
    (body.designation = some "sri" →
      ∃ rec : RevA.TransferRec,
        RevA.applyTransfer castDate now freshId officers st body
          = (st ++ [rec],
             { status := 200,
               body := [("message", JField.leaf (Jv.jstr "Transfer application submitted successfully")),
                        ("id", JField.leaf (Jv.jnum freshId))] })
        ∧ rec.designation = "SRI"
        ∧ rec ∈ RevA.transferSri (st ++ [rec]))
    ∧ (body.designation = some "Clerk" →
       RevA.applyTransfer castDate now freshId officers st body
         = (st, errResp 400 "Invalid designation")) := by
  have hsri : jsToUpperCase (jsTrim "sri") = "SRI" := by decide
  have hmemS : "SRI" ∈ RevA.ALLOWED_DESIGNATIONS := by decide
  have hclerk : jsToUpperCase (jsTrim "Clerk") ∉ RevA.ALLOWED_DESIGNATIONS := by decide
  have htru : truthy (some u) = true := by simp [truthy, hu]
  have htrs : truthy (some "sri") = true := by decide
  have htrc : truthy (some "Clerk") = true := by decide
  constructor
  · intro hd
    refine ⟨{ id := freshId, username := u, transferType := tt,
              applicantName := body.applicantName.getD "",
              workingDistrict := body.workingDistrict.getD "",
              designation := "SRI", dateOfJoining := dj,
              option1 := body.option1.getD "", option2 := body.option2,
              option3 := body.option3,
              contactNumber := body.contactNumber.getD "", createdAt := now },
            ?_, rfl, ?_⟩
    · unfold RevA.applyTransfer
      simp only [hbodyu, hd, htt]
      rw [hofficer]
      simp [htru, htrs, happ, hwd, hdoj, hopt, hcn, hdate, hsri, hmemS]
      rcases httv with h | h <;> simp [h]
    · simp [RevA.transferSri]
  · intro hd
    unfold RevA.applyTransfer
    simp only [hbodyu, hd, htt]
    rw [hofficer]
    simp [htru, htrc, happ, hwd, hdoj, hopt, hcn, hclerk]

/-- C8 witness: the theorem applied twice to concrete requests against a
one-officer directory — once with designation `sri` (stored as `SRI` and
listed by the SRI query), once with designation `Clerk` (rejected). -/
theorem c8_designation_normalized_witness :
    (∃ rec : RevA.TransferRec,
      RevA.applyTransfer (fun _ => some 42) 9 1 [c1Officer] [] c8SriBody
        = ([] ++ [rec],
           { status := 200,
             body := [("message", JField.leaf (Jv.jstr "Transfer application submitted successfully")),
                      ("id", JField.leaf (Jv.jnum 1))] })
      ∧ rec.designation = "SRI"
      ∧ rec ∈ RevA.transferSri ([] ++ [rec]))
    ∧ RevA.applyTransfer (fun _ => some 42) 9 1 [c1Officer] [] c8ClerkBody
        = ([], errResp 400 "Invalid designation") :=
  ⟨(c8_designation_normalized (fun _ => some 42) 9 1 [c1Officer] [] c8SriBody
      "o1" "One Way" c1Officer 42 (by decide) (by decide) (by decide) (by decide)
      (by decide) (by decide) (by decide) (by decide) (by decide) (by decide)
      (Or.inl rfl)).1 (by decide),
   (c8_designation_normalized (fun _ => some 42) 9 1 [c1Officer] [] c8ClerkBody
      "o1" "One Way" c1Officer 42 (by decide) (by decide) (by decide) (by decide)
      (by decide) (by decide) (by decide) (by decide) (by decide) (by decide)
      (Or.inl rfl)).2 (by decide)⟩

/-! Claim C9. -/

/-- C9: `/admin/reset-password` (`part_002` lines 278-292) performs no
authentication and no existence check: for every admin store and every
submitted password it answers status 200 with the message
`Admin password updated successfully` (hence never 404 or 401), issuing a
`findOneAndUpdate` that is a no-op — the store is returned unchanged —
when no record with username `admin` exists. -/
theorem c9_reset_password_unchecked (hash : String → String)
    (admins : List P2.Admin) (password : String) :
    (P2.resetAdminPassword hash admins password).2
      = msgResp "Admin password updated successfully"
    ∧ (P2.resetAdminPassword hash admins password).2.status = 200
    ∧ ((∀ a ∈ admins, a.username ≠ "admin") →
       (P2.resetAdminPassword hash admins password).1 = admins) := by
  refine ⟨rfl, rfl, fun hnone => ?_⟩
  unfold P2.resetAdminPassword
  exact replaceFirst_of_none _ _ admins
    (fun a ha => by simp [hnone a ha])

/-- C9 witness: resetting against an empty admin store answers 200
success and updates nothing. -/
theorem c9_reset_password_unchecked_witness :
    (P2.resetAdminPassword testHash [] "newpw").2
      = msgResp "Admin password updated successfully"
    ∧ (P2.resetAdminPassword testHash [] "newpw").2.status = 200
    ∧ (P2.resetAdminPassword testHash [] "newpw").1 = [] :=
  ⟨(c9_reset_password_unchecked testHash [] "newpw").1,
   (c9_reset_password_unchecked testHash [] "newpw").2.1,
   (c9_reset_password_unchecked testHash [] "newpw").2.2 (by simp)⟩

/-! Claim C10. -/

/-- Every record of a reachable six-designation transfer store carries an
uppercased designation, hence never the mixed-case `Deputy Tahsildar` or
`Tahsildar`. -/
theorem reachable_no_tahsildar (st : List P1b.TransferRec)
    (h : P1b.Reachable st) :
    ∀ rec ∈ st, rec.designation ≠ "Deputy Tahsildar"
      ∧ rec.designation ≠ "Tahsildar" := by
  induction h with
  | nil => simp
  | step castDate now freshId body st st2 r hst hstep ih =>
    simp only [P1b.applyTransfer] at hstep
    split at hstep
    · simp only [Except.ok.injEq, Prod.mk.injEq] at hstep
      obtain ⟨rfl, -⟩ := hstep
      exact ih
    · split at hstep
      · simp only [Except.ok.injEq, Prod.mk.injEq] at hstep
        obtain ⟨rfl, -⟩ := hstep
        exact ih
      · split at hstep
        · cases hstep
        · split at hstep
          · simp only [Except.ok.injEq, Prod.mk.injEq] at hstep
            obtain ⟨rfl, -⟩ := hstep
            intro rec hrec
            rcases List.mem_append.mp hrec with hmem | hmem
            · exact ih rec hmem
            · rcases List.mem_singleton.mp hmem with rfl
              exact ⟨jsToUpperCase_ne_deputy _, jsToUpperCase_ne_tahsildar _⟩
          · cases hstep

/-- C10: in the six-designation revision the route uppercases the
designation before the case-sensitive allow-list check, so a transfer
application submitted as `Deputy Tahsildar` or `Tahsildar` is always
rejected with the 400 error `Invalid designation` and the store is left
unchanged; consequently, on every store reachable through
`/transfer/apply`, the `/transfer/deputytahsildar` and
`/transfer/tahsildar` queries return the empty list. -/
theorem c10_tahsildar_unreachable (castDate : String → Option Nat)
    (now freshId : Nat) (st : List P1b.TransferRec) (body : TransferBody)
    (hreach : P1b.Reachable st) :
    (body.designation = some "Deputy Tahsildar" →
      P1b.applyTransfer castDate now freshId st body
        = Except.ok (st, errResp 400 "Invalid designation"))
    ∧ (body.designation = some "Tahsildar" →
      P1b.applyTransfer castDate now freshId st body
        = Except.ok (st, errResp 400 "Invalid designation"))
    ∧ P1b.transferDeputyTahsildar st = []
    ∧ P1b.transferTahsildar st = [] := by
  have hinv := reachable_no_tahsildar st hreach
  refine ⟨?_, ?_, ?_, ?_⟩
  · intro hd
    have hnot : jsToUpperCase (jsTrim "Deputy Tahsildar") ∉ P1b.ALLOWED_DESIGNATIONS := by
      decide
    unfold P1b.applyTransfer
    rw [hd]
    simp [hnot]
  · intro hd
    have hnot : jsToUpperCase (jsTrim "Tahsildar") ∉ P1b.ALLOWED_DESIGNATIONS := by
      decide
    unfold P1b.applyTransfer
    rw [hd]
    simp [hnot]
  · unfold P1b.transferDeputyTahsildar
    refine List.filter_eq_nil_iff.mpr (fun rec hrec => ?_)
    simp [(hinv rec hrec).1]
  · unfold P1b.transferTahsildar
    refine List.filter_eq_nil_iff.mpr (fun rec hrec => ?_)
    simp [(hinv rec hrec).2]

/-- C10 witness: the theorem applied to the empty (reachable) store with
concrete `Deputy Tahsildar` and `Tahsildar` requests. -/
theorem c10_tahsildar_unreachable_witness :
    P1b.applyTransfer (fun _ => some 0) 0 1 [] c10DeputyBody
      = Except.ok ([], errResp 400 "Invalid designation")
    ∧ P1b.applyTransfer (fun _ => some 0) 0 1 [] c10TahsildarBody
      = Except.ok ([], errResp 400 "Invalid designation")
    ∧ P1b.transferDeputyTahsildar [] = []
    ∧ P1b.transferTahsildar [] = [] :=
  ⟨(c10_tahsildar_unreachable (fun _ => some 0) 0 1 [] c10DeputyBody
      P1b.Reachable.nil).1 (by decide),
   (c10_tahsildar_unreachable (fun _ => some 0) 0 1 [] c10TahsildarBody
      P1b.Reachable.nil).2.1 (by decide),
   (c10_tahsildar_unreachable (fun _ => some 0) 0 1 [] c10DeputyBody
      P1b.Reachable.nil).2.2.1,
   (c10_tahsildar_unreachable (fun _ => some 0) 0 1 [] c10DeputyBody
      P1b.Reachable.nil).2.2.2⟩
